import Mathlib

/-
Verification development for the InjectorModel repository
(src/injector_model/injector_model.py, class InjectorChain).

The Python class is a mutable object; we embed it as an explicit state
structure `Chain` over the real numbers, with each method a state
transformer.  numpy square roots become `Real.sqrt`; the floating-point
NaN behaviour of `np.sqrt` on negative radicands, which one claim is
about, is modelled separately by an `Option`-valued variant (`none` =
NaN).  Exceptions (`raise ValueError`) become `Except String`.
-/

namespace InjectorModel

/-- The elementary charge, scipy.constants.e (exact CODATA value used by scipy). -/
noncomputable def elemCharge : ℝ := 1.602176634e-19

/-- One column of the ion data table `full_ion_data`: the per-ion fields read
by `init_ion` (mass [GeV], Z, A, Q before stripping, Linac3 current [uA],
Linac3 pulse length [us], LEIR-PS Stripping Efficiency). -/
structure IonData where
  massGeV : ℝ
  Z : ℝ
  A : ℝ
  Q : ℝ
  linac3currentMicroA : ℝ
  linac3pulseLengthMicroS : ℝ
  leirPsStripEff : ℝ

/-- One row of the `ion_energy_data` table loaded by `load_ion_energy`
(injection and extraction gammas for LEIR, PS and SPS). -/
structure EnergyRow where
  leirGammaInj : ℝ
  leirGammaExtr : ℝ
  psGammaInj : ℝ
  psGammaExtr : ℝ
  spsGammaInj : ℝ
  spsGammaExtr : ℝ

/-- The constructor keyword arguments of `InjectorChain.__init__` that stay
fixed for the life of the object (the ion table, reference id and energy
table are kept separately in `Chain`). -/
structure Config where
  nPulsesLEIR : ℤ
  LEIR_bunches : ℝ
  PS_splitting : ℝ
  account_for_SPS_transmission : Bool
  LEIR_PS_strip : Bool
  consider_PS_space_charge_limit : Bool
  use_gammas_ref : Bool

/-- The state of an `InjectorChain` object: every attribute of the Python
object that the modelled computations read or write.  Mutable numeric
attributes default to 0, standing for "not yet set" (the Python object
simply lacks the attribute then; along every modelled execution path an
attribute is written before it is read). -/
structure Chain where
  cfg : Config
  ion_type_ref : String
  /-- the `full_ion_data` table: the ordered columns (ion name, column). -/
  full_ion_data : List (String × IonData)
  /-- the `ion_energy_data` table, keyed by (int(Q), ion_type, int(A)) as in
  `load_ion_energy` (Python int() truncation of the nonnegative floats Q, A
  is modelled by the floor). -/
  ion_energy_data : ℤ × String × ℤ → EnergyRow
  use_Roderiks_gamma : Bool
  -- fields set by init_ion
  ion_type : String := ""
  mass_GeV : ℝ := 0
  Z : ℝ := 0
  A : ℝ := 0
  Q : ℝ := 0
  linac3_current : ℝ := 0
  linac3_pulseLength : ℝ := 0
  LEIR_injection_efficiency : ℝ := 0
  LEIR_transmission : ℝ := 0
  LEIR_PS_stripping_efficiency : ℝ := 0
  PS_transmission : ℝ := 0
  PS_SPS_transmission_efficiency : ℝ := 0
  PS_SPS_strip : Bool := false
  PS_SPS_stripping_efficiency : ℝ := 0
  SPS_transmission : ℝ := 0
  SPS_slipstacking_transmission : ℝ := 0
  -- fields set by load_ion_energy (only when use_gammas_ref)
  LEIR_gamma_inj_ref : ℝ := 0
  LEIR_gamma_extr_ref : ℝ := 0
  PS_gamma_inj_ref : ℝ := 0
  PS_gamma_extr_ref : ℝ := 0
  SPS_gamma_inj_ref : ℝ := 0
  SPS_gamma_extr_ref : ℝ := 0
  -- fields set by ion0_referenceValues
  E_kin_per_A_LEIR_inj : ℝ := 0
  E_kin_per_A_LEIR_extr : ℝ := 0
  E_kin_per_A_PS_inj : ℝ := 0
  E_kin_per_A_PS_extr : ℝ := 0
  E_kin_per_A_SPS_inj : ℝ := 0
  E_kin_per_A_SPS_extr : ℝ := 0
  m0_GeV : ℝ := 0
  Z0 : ℝ := 0
  Nq0_LEIR_extr : ℝ := 0
  Q0_LEIR : ℝ := 0
  Nb0_LEIR_extr : ℝ := 0
  gamma0_LEIR_inj : ℝ := 0
  gamma0_LEIR_extr : ℝ := 0
  Nq0_PS_extr : ℝ := 0
  Q0_PS : ℝ := 0
  Nb0_PS_extr : ℝ := 0
  gamma0_PS_inj : ℝ := 0
  gamma0_PS_extr : ℝ := 0
  Nb0_SPS_extr : ℝ := 0
  Q0_SPS : ℝ := 0
  Nq0_SPS_extr : ℝ := 0
  gamma0_SPS_inj : ℝ := 0
  gamma0_SPS_extr : ℝ := 0
  -- per-stage transient state, set by leir, ps, sps
  gamma_LEIR_inj : ℝ := 0
  gamma_LEIR_extr : ℝ := 0
  Nb_LEIR_extr : ℝ := 0
  Nq_LEIR_extr : ℝ := 0
  gamma_PS_inj : ℝ := 0
  gamma_PS_extr : ℝ := 0
  Nb_PS_extr : ℝ := 0
  Nq_PS_extr : ℝ := 0
  gamma_SPS_inj : ℝ := 0
  gamma_SPS_extr : ℝ := 0
  Nb_SPS_extr : ℝ := 0
  Nq_SPS_extr : ℝ := 0

/-- Method `beta`: relativistic beta factor from the gamma factor,
`np.sqrt(1 - 1/gamma**2)` (the method ignores the object state). -/
noncomputable def beta (gamma : ℝ) : ℝ := Real.sqrt (1 - 1 / gamma ^ 2)

/-- Method `load_ion_energy`: copies the six reference gammas of the active
ion from the `ion_energy_data` table into the object, keyed by
`str(int(self.Q)) + self.ion_type + str(int(self.A))`. -/
noncomputable def load_ion_energy (c : Chain) : Chain :=
  let row := c.ion_energy_data (⌊c.Q⌋, c.ion_type, ⌊c.A⌋)
  { c with
    LEIR_gamma_inj_ref := row.leirGammaInj
    LEIR_gamma_extr_ref := row.leirGammaExtr
    PS_gamma_inj_ref := row.psGammaInj
    PS_gamma_extr_ref := row.psGammaExtr
    SPS_gamma_inj_ref := row.spsGammaInj
    SPS_gamma_extr_ref := row.spsGammaExtr }

/-- Method `init_ion`: initializes the ion species fields for a given type.
The Python code looks the column up as `self.full_ion_data[ion_type]`; the
looked-up column is passed here explicitly as `d`. -/
noncomputable def init_ion (c : Chain) (ion_type : String) (d : IonData) : Chain :=
  let c1 := { c with
    ion_type := ion_type
    mass_GeV := d.massGeV
    Z := d.Z
    A := d.A
    Q := d.Q
    linac3_current := d.linac3currentMicroA * 1e-6
    linac3_pulseLength := d.linac3pulseLengthMicroS * 1e-6
    LEIR_injection_efficiency := 0.5
    LEIR_transmission := 0.8
    LEIR_PS_stripping_efficiency := d.leirPsStripEff
    PS_transmission := 0.9
    PS_SPS_transmission_efficiency := 1.0
    PS_SPS_strip := !c.cfg.LEIR_PS_strip
    PS_SPS_stripping_efficiency := 0.9
    SPS_transmission := 0.62
    SPS_slipstacking_transmission := 1.0 }
  if c.cfg.use_gammas_ref then load_ion_energy c1 else c1

/-- Method `linearIntensityLimit`: linear intensity limit for a new ion
species given the reference bunch intensity `Nb_0` and reference parameters
`gamma_0`, `charge_0`, `m_0`; the target charge is `self.Z` when
`fully_stripped` and `self.Q` otherwise. -/
noncomputable def linearIntensityLimit (c : Chain) (m gamma Nb_0 charge_0 m_0 gamma_0 : ℝ)
    (fully_stripped : Bool) : ℝ :=
  let charge := if fully_stripped then c.Z else c.Q
  let beta_0 := beta gamma_0
  let betaNew := beta gamma
  let linearIntensityFactor :=
    (m / m_0) * (charge_0 / charge) ^ 2 * (betaNew / beta_0) * (gamma / gamma_0) ^ 2
  Nb_0 * linearIntensityFactor

/-- Method `ion0_referenceValues`: sets the fixed kinetic energies per
nucleon, then, when the reference species is Pb, all Pb reference constants;
for any other reference species it raises
`ValueError('Other reference ion type than Pb does not yet exist!')`.
When `account_for_SPS_transmission` is false, `SPS_transmission` is reset to
1.0 before the reference SPS bunch intensity is derived from it. -/
noncomputable def ion0_referenceValues (c : Chain) : Except String Chain :=
  let c1 := { c with
    E_kin_per_A_LEIR_inj := 4.2e-3
    E_kin_per_A_LEIR_extr := 7.22e-2
    E_kin_per_A_PS_inj := 7.22e-2
    E_kin_per_A_PS_extr := 5.9
    E_kin_per_A_SPS_inj := 5.9
    E_kin_per_A_SPS_extr := 176.4 }
  if c1.ion_type_ref = "Pb" then
    let m0 : ℝ := 193.687
    let sps_t : ℝ := if c1.cfg.account_for_SPS_transmission then c1.SPS_transmission else 1.0
    Except.ok { c1 with
      m0_GeV := m0
      Z0 := 82.0
      Nq0_LEIR_extr := 10e10
      Q0_LEIR := 54.0
      Nb0_LEIR_extr := 10e10 / 54.0
      gamma0_LEIR_inj := (m0 + c1.E_kin_per_A_LEIR_inj * 208) / m0
      gamma0_LEIR_extr := (m0 + c1.E_kin_per_A_LEIR_extr * 208) / m0
      Nq0_PS_extr := 6e10
      Q0_PS := 54.0
      Nb0_PS_extr := 6e10 / 54.0
      gamma0_PS_inj := (m0 + c1.E_kin_per_A_PS_inj * 208) / m0
      gamma0_PS_extr := (m0 + c1.E_kin_per_A_PS_extr * 208) / m0
      SPS_transmission := sps_t
      Nb0_SPS_extr := 2.21e8 / sps_t
      Q0_SPS := 82.0
      Nq0_SPS_extr := 2.21e8 / sps_t * 82.0
      gamma0_SPS_inj := (m0 + c1.E_kin_per_A_SPS_inj * 208) / m0
      gamma0_SPS_extr := (m0 + c1.E_kin_per_A_SPS_extr * 208) / m0 }
  else
    Except.error ("Other reference ion type than Pb does not yet exist!")

/-- The constructor `InjectorChain.__init__`, reduced to the modelled state:
stores the configuration and tables, runs `init_ion` on the initial ion
(whose looked-up column is passed as `d`), then `ion0_referenceValues`;
`use_Roderiks_gamma` is true exactly when `use_gammas_ref` is false. -/
noncomputable def mkInjectorChain (ion_type : String) (d : IonData)
    (ion_data : List (String × IonData)) (ion_type_ref : String) (cfg : Config)
    (energy : ℤ × String × ℤ → EnergyRow) : Except String Chain :=
  let base : Chain := {
    cfg := cfg
    ion_type_ref := ion_type_ref
    full_ion_data := ion_data
    ion_energy_data := energy
    use_Roderiks_gamma := !cfg.use_gammas_ref }
  ion0_referenceValues (init_ion base ion_type d)

/-- Method `leir`: gammas at LEIR injection and extraction (from the lookup
table when `use_gammas_ref`, else from the kinetic-energy formula) and the
extracted bunch and charge intensities. -/
noncomputable def leir (c : Chain) : Chain :=
  let gin := if c.cfg.use_gammas_ref then c.LEIR_gamma_inj_ref
    else (c.mass_GeV + c.E_kin_per_A_LEIR_inj * c.A) / c.mass_GeV
  let gex := if c.cfg.use_gammas_ref then c.LEIR_gamma_extr_ref
    else (c.mass_GeV + c.E_kin_per_A_LEIR_extr * c.A) / c.mass_GeV
  let nb := linearIntensityLimit c c.mass_GeV gex c.Nb0_LEIR_extr c.Q0_LEIR c.m0_GeV
    c.gamma0_LEIR_extr false
  { c with
    gamma_LEIR_inj := gin
    gamma_LEIR_extr := gex
    Nb_LEIR_extr := nb
    Nq_LEIR_extr := nb * c.Q }

/-- Method `ps`: gammas at PS injection and extraction and the extracted
bunch and charge intensities. -/
noncomputable def ps (c : Chain) : Chain :=
  let gin := if c.cfg.use_gammas_ref then c.PS_gamma_inj_ref
    else (c.mass_GeV + c.E_kin_per_A_PS_inj * c.A) / c.mass_GeV
  let gex := if c.cfg.use_gammas_ref then c.PS_gamma_extr_ref
    else (c.mass_GeV + c.E_kin_per_A_PS_extr * c.A) / c.mass_GeV
  let nb := linearIntensityLimit c c.mass_GeV gex c.Nb0_PS_extr c.Q0_PS c.m0_GeV
    c.gamma0_PS_extr false
  { c with
    gamma_PS_inj := gin
    gamma_PS_extr := gex
    Nb_PS_extr := nb
    Nq_PS_extr := nb * c.Q }

/-- Method `sps`: gamma at SPS injection (from the lookup table when
`use_gammas_ref`; otherwise the kinetic-energy formula, overridden by the
rigidity-preserving Roderik scaling when `use_Roderiks_gamma`), gamma at SPS
extraction, and the extracted bunch and charge intensities (fully
stripped). -/
noncomputable def sps (c : Chain) : Chain :=
  let gin := if c.cfg.use_gammas_ref then c.SPS_gamma_inj_ref
    else if c.use_Roderiks_gamma then
      Real.sqrt (1 + (((if c.cfg.LEIR_PS_strip then c.Z else c.Q) / 54)
        / (c.mass_GeV / c.m0_GeV)) ^ 2 * (c.gamma0_SPS_inj ^ 2 - 1))
    else (c.mass_GeV + c.E_kin_per_A_SPS_inj * c.A) / c.mass_GeV
  let gex := if c.cfg.use_gammas_ref then c.SPS_gamma_extr_ref
    else (c.mass_GeV + c.E_kin_per_A_SPS_extr * c.A) / c.mass_GeV
  let nb := linearIntensityLimit c c.mass_GeV gin c.Nb0_SPS_extr c.Q0_SPS c.m0_GeV
    c.gamma0_SPS_inj true
  { c with
    gamma_SPS_inj := gin
    gamma_SPS_extr := gex
    Nb_SPS_extr := nb
    Nq_SPS_extr := nb * c.Z }

/-- Method `simulate_injection_SpaceCharge_limit`: runs the stages in order
(`linac3`, `stripper_foil_leir_ps`, `stripper_foil_ps_sps` and
`space_charge_tune_shift` are `pass` in the source, hence omitted). -/
noncomputable def simulate_injection_SpaceCharge_limit (c : Chain) : Chain :=
  sps (ps (leir c))

/-- The result dictionary assembled by `calculate_LHC_bunch_intensity`.
Field names follow the dictionary keys (units and spaces dropped); the
optional key `LEIR_PS_strippingEfficiency`, present only when
`LEIR_PS_strip`, is an `Option`. -/
structure Result where
  chargeBeforeStrip : ℤ
  atomicNumber : ℤ
  massNumber : ℤ
  Linac3_current : ℝ
  Linac3_pulse_length : ℝ
  Linac3_ionsPerPulse : ℝ
  LEIR_numberofPulses : ℤ
  LEIR_injection_efficiency : ℝ
  LEIR_maxIntensity : ℝ
  LEIR_space_charge_limit : ℝ
  LEIR_splitting : ℝ
  LEIR_gamma : ℝ
  LEIR_extractedIonPerBunch : ℝ
  LEIR_transmission : ℝ
  PS_space_charge_limit : ℝ
  PS_splitting : ℝ
  PS_transmission : ℝ
  PS_ionsExtractedPerBunch : ℝ
  gammaInjSPS : ℝ
  PS_SPS_stripping_efficiency : ℝ
  SPS_maxIntensityPerBunch : ℝ
  SPS_spaceChargeLimit : ℝ
  SPS_inj_gamma : ℝ
  SPS_accIntensity : ℝ
  SPS_transmission : ℝ
  LHC_ionsPerBunch : ℝ
  LHC_chargesPerBunch : ℝ
  Ion : String
  LEIR_PS_strippingEfficiency : Option ℝ

open Classical

/-- Method `calculate_LHC_bunch_intensity`: runs the full space-charge
simulation, then derives the LEIR, PS and SPS transmission chain and the
final LHC bunch intensity, returning the mutated state together with the
result record.  Python `int()` of the nonnegative floats Q, Z, A is
modelled by the floor. -/
noncomputable def calculate_LHC_bunch_intensity (c0 : Chain) : Chain × Result :=
  let c := simulate_injection_SpaceCharge_limit c0
  let ionsPerPulseLinac3 := c.linac3_current * c.linac3_pulseLength / (c.Q * elemCharge)
  let spaceChargeLimitLEIR := linearIntensityLimit c c.mass_GeV c.gamma_LEIR_extr
    c.Nb0_LEIR_extr c.Q0_LEIR c.m0_GeV c.gamma0_LEIR_extr false
  let nPulsesLEIR : ℤ :=
    if c.cfg.nPulsesLEIR = 0 then
      min 7 ⌈spaceChargeLimitLEIR / (ionsPerPulseLinac3 * c.LEIR_injection_efficiency)⌉
    else c.cfg.nPulsesLEIR
  let totalIntLEIR := ionsPerPulseLinac3 * (nPulsesLEIR : ℝ) * c.LEIR_injection_efficiency
  let ionsPerBunchExtractedLEIR :=
    c.LEIR_transmission * min totalIntLEIR spaceChargeLimitLEIR / c.cfg.LEIR_bunches
  let ionsPerBunchExtractedPS := ionsPerBunchExtractedLEIR
    * (if c.cfg.LEIR_PS_strip then c.LEIR_PS_stripping_efficiency else 1)
    * c.PS_transmission / c.cfg.PS_splitting
  let spaceChargeLimitPS := linearIntensityLimit c c.mass_GeV c.gamma_PS_inj
    c.Nb0_PS_extr c.Q0_PS c.m0_GeV c.gamma0_PS_inj c.cfg.LEIR_PS_strip
  let ionsPerBunchPS :=
    if c.cfg.consider_PS_space_charge_limit then min spaceChargeLimitPS ionsPerBunchExtractedPS
    else ionsPerBunchExtractedPS
  let ionsPerBunchSPSinj := ionsPerBunchPS
    * (if c.Z = c.Q ∨ c.cfg.LEIR_PS_strip then c.PS_SPS_transmission_efficiency
       else c.PS_SPS_stripping_efficiency)
  let spaceChargeLimitSPS := linearIntensityLimit c c.mass_GeV c.gamma_SPS_inj
    c.Nb0_SPS_extr c.Q0_SPS c.m0_GeV c.gamma0_SPS_inj true
  let ionsPerBunchLHC := min spaceChargeLimitSPS ionsPerBunchSPSinj
    * c.SPS_transmission * c.SPS_slipstacking_transmission
  (c, {
    chargeBeforeStrip := ⌊c.Q⌋
    atomicNumber := ⌊c.Z⌋
    massNumber := ⌊c.A⌋
    Linac3_current := c.linac3_current
    Linac3_pulse_length := c.linac3_pulseLength
    Linac3_ionsPerPulse := ionsPerPulseLinac3
    LEIR_numberofPulses := nPulsesLEIR
    LEIR_injection_efficiency := c.LEIR_injection_efficiency
    LEIR_maxIntensity := totalIntLEIR
    LEIR_space_charge_limit := spaceChargeLimitLEIR
    LEIR_splitting := c.cfg.LEIR_bunches
    LEIR_gamma := c.gamma_LEIR_inj
    LEIR_extractedIonPerBunch := ionsPerBunchExtractedLEIR
    LEIR_transmission := c.LEIR_transmission
    PS_space_charge_limit := spaceChargeLimitPS
    PS_splitting := c.cfg.PS_splitting
    PS_transmission := c.PS_transmission
    PS_ionsExtractedPerBunch := ionsPerBunchExtractedPS
    gammaInjSPS := c.gamma_SPS_inj
    PS_SPS_stripping_efficiency := c.PS_SPS_stripping_efficiency
    SPS_maxIntensityPerBunch := ionsPerBunchSPSinj
    SPS_spaceChargeLimit := spaceChargeLimitSPS
    SPS_inj_gamma := c.gamma_SPS_inj
    SPS_accIntensity := min spaceChargeLimitSPS ionsPerBunchSPSinj
    SPS_transmission := c.SPS_transmission
    LHC_ionsPerBunch := ionsPerBunchLHC
    LHC_chargesPerBunch := ionsPerBunchLHC * c.Z
    Ion := c.ion_type
    LEIR_PS_strippingEfficiency :=
      if c.cfg.LEIR_PS_strip then some c.LEIR_PS_stripping_efficiency else none })

/-- One iteration of the batch loop in
`calculate_LHC_bunch_intensity_all_ion_species`: `init_ion` on the column
`(name, data)`, then `calculate_LHC_bunch_intensity`. -/
noncomputable def calcOneIon (c : Chain) (entry : String × IonData) : Chain × Result :=
  calculate_LHC_bunch_intensity (init_ion c entry.1 entry.2)

/-- The loop of `calculate_LHC_bunch_intensity_all_ion_species` over a list
of table columns, threading the mutable object state and collecting the
per-ion records in order. -/
noncomputable def batchLoop (c : Chain) : List (String × IonData) → Chain × List Result
  | [] => (c, [])
  | entry :: rest =>
      let step := calcOneIon c entry
      let tail := batchLoop step.1 rest
      (tail.1, step.2 :: tail.2)

/-- Method `calculate_LHC_bunch_intensity_all_ion_species`: iterates
`init_ion` plus `calculate_LHC_bunch_intensity` over every column of
`full_ion_data` in table order (the DataFrame conversion and CSV export are
outside the modelled core). -/
noncomputable def calculate_LHC_bunch_intensity_all_ion_species (c : Chain) :
    Chain × List Result :=
  batchLoop c c.full_ion_data

/-- The object state that survives `init_ion` and
`calculate_LHC_bunch_intensity` unchanged: configuration, tables and the
reference constants.  A per-ion record is a function of this view and the
ion column alone. -/
structure PersistView where
  cfg : Config
  ion_type_ref : String
  full_ion_data : List (String × IonData)
  ion_energy_data : ℤ × String × ℤ → EnergyRow
  use_Roderiks_gamma : Bool
  E_kin_per_A_LEIR_inj : ℝ
  E_kin_per_A_LEIR_extr : ℝ
  E_kin_per_A_PS_inj : ℝ
  E_kin_per_A_PS_extr : ℝ
  E_kin_per_A_SPS_inj : ℝ
  E_kin_per_A_SPS_extr : ℝ
  m0_GeV : ℝ
  Z0 : ℝ
  Nq0_LEIR_extr : ℝ
  Q0_LEIR : ℝ
  Nb0_LEIR_extr : ℝ
  gamma0_LEIR_inj : ℝ
  gamma0_LEIR_extr : ℝ
  Nq0_PS_extr : ℝ
  Q0_PS : ℝ
  Nb0_PS_extr : ℝ
  gamma0_PS_inj : ℝ
  gamma0_PS_extr : ℝ
  Nb0_SPS_extr : ℝ
  Q0_SPS : ℝ
  Nq0_SPS_extr : ℝ
  gamma0_SPS_inj : ℝ
  gamma0_SPS_extr : ℝ

/-- Projection of a chain state onto its persistent part. -/
noncomputable def persist (c : Chain) : PersistView where
  cfg := c.cfg
  ion_type_ref := c.ion_type_ref
  full_ion_data := c.full_ion_data
  ion_energy_data := c.ion_energy_data
  use_Roderiks_gamma := c.use_Roderiks_gamma
  E_kin_per_A_LEIR_inj := c.E_kin_per_A_LEIR_inj
  E_kin_per_A_LEIR_extr := c.E_kin_per_A_LEIR_extr
  E_kin_per_A_PS_inj := c.E_kin_per_A_PS_inj
  E_kin_per_A_PS_extr := c.E_kin_per_A_PS_extr
  E_kin_per_A_SPS_inj := c.E_kin_per_A_SPS_inj
  E_kin_per_A_SPS_extr := c.E_kin_per_A_SPS_extr
  m0_GeV := c.m0_GeV
  Z0 := c.Z0
  Nq0_LEIR_extr := c.Nq0_LEIR_extr
  Q0_LEIR := c.Q0_LEIR
  Nb0_LEIR_extr := c.Nb0_LEIR_extr
  gamma0_LEIR_inj := c.gamma0_LEIR_inj
  gamma0_LEIR_extr := c.gamma0_LEIR_extr
  Nq0_PS_extr := c.Nq0_PS_extr
  Q0_PS := c.Q0_PS
  Nb0_PS_extr := c.Nb0_PS_extr
  gamma0_PS_inj := c.gamma0_PS_inj
  gamma0_PS_extr := c.gamma0_PS_extr
  Nb0_SPS_extr := c.Nb0_SPS_extr
  Q0_SPS := c.Q0_SPS
  Nq0_SPS_extr := c.Nq0_SPS_extr
  gamma0_SPS_inj := c.gamma0_SPS_inj
  gamma0_SPS_extr := c.gamma0_SPS_extr

/-- A chain state carrying exactly a persistent view, with every transient
field at its default. -/
noncomputable def chainOfPersist (p : PersistView) : Chain where
  cfg := p.cfg
  ion_type_ref := p.ion_type_ref
  full_ion_data := p.full_ion_data
  ion_energy_data := p.ion_energy_data
  use_Roderiks_gamma := p.use_Roderiks_gamma
  E_kin_per_A_LEIR_inj := p.E_kin_per_A_LEIR_inj
  E_kin_per_A_LEIR_extr := p.E_kin_per_A_LEIR_extr
  E_kin_per_A_PS_inj := p.E_kin_per_A_PS_inj
  E_kin_per_A_PS_extr := p.E_kin_per_A_PS_extr
  E_kin_per_A_SPS_inj := p.E_kin_per_A_SPS_inj
  E_kin_per_A_SPS_extr := p.E_kin_per_A_SPS_extr
  m0_GeV := p.m0_GeV
  Z0 := p.Z0
  Nq0_LEIR_extr := p.Nq0_LEIR_extr
  Q0_LEIR := p.Q0_LEIR
  Nb0_LEIR_extr := p.Nb0_LEIR_extr
  gamma0_LEIR_inj := p.gamma0_LEIR_inj
  gamma0_LEIR_extr := p.gamma0_LEIR_extr
  Nq0_PS_extr := p.Nq0_PS_extr
  Q0_PS := p.Q0_PS
  Nb0_PS_extr := p.Nb0_PS_extr
  gamma0_PS_inj := p.gamma0_PS_inj
  gamma0_PS_extr := p.gamma0_PS_extr
  Nb0_SPS_extr := p.Nb0_SPS_extr
  Q0_SPS := p.Q0_SPS
  Nq0_SPS_extr := p.Nq0_SPS_extr
  gamma0_SPS_inj := p.gamma0_SPS_inj
  gamma0_SPS_extr := p.gamma0_SPS_extr

/-- The record produced for one ion column as a pure function of the
persistent view and the column: no transient state enters. -/
noncomputable def recordPure (p : PersistView) (entry : String × IonData) : Result :=
  (calcOneIon (chainOfPersist p) entry).2

/-- NaN-tracking model of the `beta` method under numpy float semantics:
`np.sqrt` of a negative radicand is NaN (`none`), and at `gamma = 0` the
float evaluation of `1/gamma**2` is infinite, making the radicand negative
infinity and the square root NaN as well. -/
noncomputable def betaF (gamma : ℝ) : Option ℝ :=
  if gamma = 0 then none
  else if 1 - 1 / gamma ^ 2 < 0 then none
  else some (Real.sqrt (1 - 1 / gamma ^ 2))

/-- NaN-tracking model of `linearIntensityLimit`: a NaN in either beta
factor propagates through the products and division to the returned
intensity (`none` = NaN). -/
noncomputable def linearIntensityLimitF (c : Chain) (m gamma Nb_0 charge_0 m_0 gamma_0 : ℝ)
    (fully_stripped : Bool) : Option ℝ :=
  let charge := if fully_stripped then c.Z else c.Q
  match betaF gamma_0, betaF gamma with
  | some beta_0, some betaNew =>
      some (Nb_0 * ((m / m_0) * (charge_0 / charge) ^ 2 * (betaNew / beta_0)
        * (gamma / gamma_0) ^ 2))
  | _, _ => none

/-- An oxygen-like concrete ion column used to instantiate theorems. -/
noncomputable def ionO : IonData := ⟨15.99, 8, 16, 4, 70, 200, 0.9⟩

/-- An all-zero ion column (degenerate but well-typed input). -/
noncomputable def ionZero : IonData := ⟨0, 0, 0, 0, 0, 0, 0⟩

/-- A constant energy-lookup table. -/
noncomputable def energyConst : ℤ × String × ℤ → EnergyRow := fun _ => ⟨1, 1, 1, 1, 1, 1⟩

/-- The default constructor configuration (formula gammas, late stripping). -/
noncomputable def cfgDefault : Config := ⟨1, 1, 1, true, false, true, false⟩

/-- Default configuration with the LEIR pulse count in auto mode. -/
noncomputable def cfgAuto : Config := ⟨0, 1, 1, true, false, true, false⟩

/-- Default configuration with `account_for_SPS_transmission = False`. -/
noncomputable def cfgNoSPSTrans : Config := ⟨1, 1, 1, false, false, true, false⟩

/-- A concrete chain state with the oxygen-like ion fields set. -/
noncomputable def chainO : Chain :=
  { cfg := cfgDefault, ion_type_ref := "Pb",
    full_ion_data := [("O", ionO), ("O", ionO)], ion_energy_data := energyConst,
    use_Roderiks_gamma := true, Z := 8, Q := 4 }

/-- A concrete chain state with auto pulse-count configuration. -/
noncomputable def chainAuto : Chain :=
  { cfg := cfgAuto, ion_type_ref := "Pb", full_ion_data := [],
    ion_energy_data := energyConst, use_Roderiks_gamma := true }

/-- A concrete chain state over the all-zero ion column. -/
noncomputable def chainZero : Chain :=
  { cfg := cfgDefault, ion_type_ref := "Pb", full_ion_data := [("Zero", ionZero)],
    ion_energy_data := energyConst, use_Roderiks_gamma := true }

/-- A concrete chain state with `account_for_SPS_transmission = False`. -/
noncomputable def chainNoSPSTrans : Chain :=
  { cfg := cfgNoSPSTrans, ion_type_ref := "Pb", full_ion_data := [("O", ionO)],
    ion_energy_data := energyConst, use_Roderiks_gamma := true }

/-- Helper: `init_ion` and `calculate_LHC_bunch_intensity` leave the
persistent part of the state unchanged. -/
theorem persist_calcOneIon (c : Chain) (entry : String × IonData) :
    persist (calcOneIon c entry).1 = persist c := by
  unfold calcOneIon init_ion
  split
  · rfl
  · rfl

set_option maxHeartbeats 2000000 in
/-- The record emitted for one ion depends only on the persistent view and
the ion column: the transient per-ion state of the incoming chain never
enters the record. -/
theorem calcOneIon_record (c : Chain) (entry : String × IonData) :
    (calcOneIon c entry).2 = recordPure (persist c) entry := by
  cases h : c.cfg.use_gammas_ref with
  | false =>
      simp only [calcOneIon, recordPure, init_ion, persist, chainOfPersist,
        calculate_LHC_bunch_intensity, simulate_injection_SpaceCharge_limit,
        leir, ps, sps, linearIntensityLimit, load_ion_energy, beta, h,
        Bool.false_eq_true, if_false, if_true, ite_false, ite_true]
  | true =>
      simp only [calcOneIon, recordPure, init_ion, persist, chainOfPersist,
        calculate_LHC_bunch_intensity, simulate_injection_SpaceCharge_limit,
        leir, ps, sps, linearIntensityLimit, load_ion_energy, beta, h,
        Bool.false_eq_true, if_false, if_true, ite_false, ite_true]

/-- The batch loop maps the pure per-ion record function over the table. -/
theorem batchLoop_records (tbl : List (String × IonData)) :
    ∀ c : Chain, (batchLoop c tbl).2 = tbl.map (recordPure (persist c)) := by
  induction tbl with
  | nil => intro c; rfl
  | cons entry rest ih =>
      intro c
      show (calcOneIon c entry).2 :: (batchLoop (calcOneIon c entry).1 rest).2 =
        recordPure (persist c) entry :: rest.map (recordPure (persist c))
      rw [calcOneIon_record, ih, persist_calcOneIon]

/-- Helper: `init_ion` always resets the SPS transmission to 0.62. -/
theorem init_ion_SPS_transmission (c : Chain) (ion_type : String) (d : IonData) :
    (init_ion c ion_type d).SPS_transmission = 0.62 := by
  unfold init_ion
  split
  · rfl
  · rfl

/-- The emitted record copies the SPS transmission of the state it was
computed on. -/
theorem calc_record_SPS_transmission (c : Chain) :
    (calculate_LHC_bunch_intensity c).2.SPS_transmission = c.SPS_transmission := rfl

/-- Helper: `init_ion` leaves the configuration unchanged. -/
theorem init_ion_cfg (c : Chain) (ion_type : String) (d : IonData) :
    (init_ion c ion_type d).cfg = c.cfg := by
  unfold init_ion
  split
  · rfl
  · rfl

/-- Helper: `init_ion` sets the LEIR transmission to 0.8. -/
theorem init_ion_LEIR_transmission (c : Chain) (ion_type : String) (d : IonData) :
    (init_ion c ion_type d).LEIR_transmission = 0.8 := by
  unfold init_ion
  split
  · rfl
  · rfl

/-- Helper: `init_ion` sets the SPS slip-stacking transmission to 1.0. -/
theorem init_ion_SPS_slipstacking (c : Chain) (ion_type : String) (d : IonData) :
    (init_ion c ion_type d).SPS_slipstacking_transmission = 1.0 := by
  unfold init_ion
  split
  · rfl
  · rfl

/-- Helper: `init_ion` leaves the reference species identifier unchanged. -/
theorem init_ion_ion_type_ref (c : Chain) (ion_type : String) (d : IonData) :
    (init_ion c ion_type d).ion_type_ref = c.ion_type_ref := by
  unfold init_ion
  split
  · rfl
  · rfl

/-- The pure per-ion record always reports the 0.62 SPS transmission that
init_ion has just set. -/
theorem recordPure_SPS_transmission (p : PersistView) (entry : String × IonData) :
    (recordPure p entry).SPS_transmission = 0.62 := by
  unfold recordPure calcOneIon
  rw [calc_record_SPS_transmission, init_ion_SPS_transmission]

/-- The emitted LHC intensity field is the min of the two SPS quantities
times the SPS transmission and slip-stacking transmission of the state. -/
theorem calc_LHC_ionsPerBunch_eq (c : Chain) :
    (calculate_LHC_bunch_intensity c).2.LHC_ionsPerBunch =
      min ((calculate_LHC_bunch_intensity c).2.SPS_spaceChargeLimit)
        ((calculate_LHC_bunch_intensity c).2.SPS_maxIntensityPerBunch)
        * c.SPS_transmission * c.SPS_slipstacking_transmission := rfl

/-- The emitted LEIR extracted-per-bunch field is the LEIR transmission
times the min of total injected intensity and space-charge limit, split
over the configured bunch count. -/
theorem calc_LEIR_extracted_eq (c : Chain) :
    (calculate_LHC_bunch_intensity c).2.LEIR_extractedIonPerBunch =
      c.LEIR_transmission
        * min ((calculate_LHC_bunch_intensity c).2.LEIR_maxIntensity)
          ((calculate_LHC_bunch_intensity c).2.LEIR_space_charge_limit)
        / c.cfg.LEIR_bunches := rfl

/-- C1: for masses, charges positive and gammas above 1, the Linear
Intensity Scaler returns the reference intensity times
(m/m0) (charge0/charge)^2 (beta/beta0) (gamma/gamma0)^2, where beta(g) =
sqrt(1 - 1/g^2), the target charge is Z when fully stripped and Q
otherwise, and the reference charge is the passed argument, never
recomputed. -/
theorem linearIntensityLimit_formula (c : Chain)
    (m gamma Nb_0 charge_0 m_0 gamma_0 : ℝ) (fully_stripped : Bool)
    (hm : 0 < m) (hm0 : 0 < m_0) (hZ : 0 < c.Z) (hQ : 0 < c.Q)
    (hcharge0 : 0 < charge_0) (hg : 1 < gamma) (hg0 : 1 < gamma_0) :
    linearIntensityLimit c m gamma Nb_0 charge_0 m_0 gamma_0 fully_stripped =
      Nb_0 * (m / m_0)
        * (charge_0 / (if fully_stripped then c.Z else c.Q)) ^ 2
        * (Real.sqrt (1 - 1 / gamma ^ 2) / Real.sqrt (1 - 1 / gamma_0 ^ 2))
        * (gamma / gamma_0) ^ 2 := by
  unfold linearIntensityLimit beta
  ring

/-- Witness for C1 at concrete inputs. -/
theorem linearIntensityLimit_formula_witness :
    linearIntensityLimit chainO 2 2 3 5 1 3 true =
      3 * (2 / 1) * (5 / (if true then chainO.Z else chainO.Q)) ^ 2
        * (Real.sqrt (1 - 1 / 2 ^ 2) / Real.sqrt (1 - 1 / 3 ^ 2))
        * ((2 : ℝ) / 3) ^ 2 :=
  linearIntensityLimit_formula chainO 2 2 3 5 1 3 true (by norm_num) (by norm_num)
    (by norm_num [chainO]) (by norm_num [chainO]) (by norm_num) (by norm_num)
    (by norm_num)

/-- C2: for any ion just initialized by init_ion, the delivered LHC
intensity equals min(spaceChargeLimitSPS, ionsPerBunchSPSinj) times the
0.62 SPS transmission and 1.0 slip-stacking transmission, hence (for
nonnegative limits) is at most each of the two; and the LEIR extracted
intensity is built from min(totalIntLEIR, spaceChargeLimitLEIR). -/
theorem LHC_intensity_min_of_limits (c : Chain) (ion_type : String) (d : IonData)
    (hSC : 0 ≤ (calculate_LHC_bunch_intensity (init_ion c ion_type d)).2.SPS_spaceChargeLimit)
    (hInj : 0 ≤ (calculate_LHC_bunch_intensity (init_ion c ion_type d)).2.SPS_maxIntensityPerBunch) :
    (calculate_LHC_bunch_intensity (init_ion c ion_type d)).2.LHC_ionsPerBunch =
      min ((calculate_LHC_bunch_intensity (init_ion c ion_type d)).2.SPS_spaceChargeLimit)
        ((calculate_LHC_bunch_intensity (init_ion c ion_type d)).2.SPS_maxIntensityPerBunch)
        * 0.62 * 1.0 ∧
    (calculate_LHC_bunch_intensity (init_ion c ion_type d)).2.LHC_ionsPerBunch ≤
      (calculate_LHC_bunch_intensity (init_ion c ion_type d)).2.SPS_spaceChargeLimit ∧
    (calculate_LHC_bunch_intensity (init_ion c ion_type d)).2.LHC_ionsPerBunch ≤
      (calculate_LHC_bunch_intensity (init_ion c ion_type d)).2.SPS_maxIntensityPerBunch ∧
    (calculate_LHC_bunch_intensity (init_ion c ion_type d)).2.LEIR_extractedIonPerBunch =
      0.8 * min ((calculate_LHC_bunch_intensity (init_ion c ion_type d)).2.LEIR_maxIntensity)
        ((calculate_LHC_bunch_intensity (init_ion c ion_type d)).2.LEIR_space_charge_limit)
        / c.cfg.LEIR_bunches := by
  have eT := init_ion_SPS_transmission c ion_type d
  have eS := init_ion_SPS_slipstacking c ion_type d
  have eL := init_ion_LEIR_transmission c ion_type d
  have eC := init_ion_cfg c ion_type d
  have eLHC := calc_LHC_ionsPerBunch_eq (init_ion c ion_type d)
  rw [eT, eS] at eLHC
  have hmin : 0 ≤ min ((calculate_LHC_bunch_intensity (init_ion c ion_type d)).2.SPS_spaceChargeLimit)
      ((calculate_LHC_bunch_intensity (init_ion c ion_type d)).2.SPS_maxIntensityPerBunch) :=
    le_min hSC hInj
  refine ⟨eLHC, ?_, ?_, ?_⟩
  · rw [eLHC]
    have := min_le_left ((calculate_LHC_bunch_intensity (init_ion c ion_type d)).2.SPS_spaceChargeLimit)
      ((calculate_LHC_bunch_intensity (init_ion c ion_type d)).2.SPS_maxIntensityPerBunch)
    nlinarith
  · rw [eLHC]
    have := min_le_right ((calculate_LHC_bunch_intensity (init_ion c ion_type d)).2.SPS_spaceChargeLimit)
      ((calculate_LHC_bunch_intensity (init_ion c ion_type d)).2.SPS_maxIntensityPerBunch)
    nlinarith
  · have eLEIR := calc_LEIR_extracted_eq (init_ion c ion_type d)
    rw [eLEIR, eL, eC]

/-- Witness for C2: at the all-zero concrete ion every intensity is zero,
the nonnegativity hypotheses hold, and the min-of-limits bound follows. -/
theorem LHC_intensity_min_of_limits_witness :
    (calculate_LHC_bunch_intensity (init_ion chainZero ("Zero") ionZero)).2.LHC_ionsPerBunch ≤
      (calculate_LHC_bunch_intensity (init_ion chainZero ("Zero") ionZero)).2.SPS_spaceChargeLimit := by
  have hSC : (0 : ℝ) ≤
      (calculate_LHC_bunch_intensity (init_ion chainZero ("Zero") ionZero)).2.SPS_spaceChargeLimit := by
    simp only [calculate_LHC_bunch_intensity, simulate_injection_SpaceCharge_limit,
      leir, ps, sps, init_ion, load_ion_energy, linearIntensityLimit, beta,
      chainZero, cfgDefault, ionZero]
    norm_num
  have hInj : (0 : ℝ) ≤
      (calculate_LHC_bunch_intensity (init_ion chainZero ("Zero") ionZero)).2.SPS_maxIntensityPerBunch := by
    simp only [calculate_LHC_bunch_intensity, simulate_injection_SpaceCharge_limit,
      leir, ps, sps, init_ion, load_ion_energy, linearIntensityLimit, beta,
      chainZero, cfgDefault, ionZero]
    norm_num [min_self]
  exact (LHC_intensity_min_of_limits chainZero ("Zero") ionZero hSC hInj).2.1

/-- C3: when the lookup table is not used and the Roderik scaling mode is
active, the SPS injection gamma is overridden by the rigidity-preserving
formula, with charge Z if LEIR-PS stripping is configured and Q otherwise,
and 54 the reference charge at PS extraction. -/
theorem sps_gamma_inj_roderik (c : Chain)
    (h1 : c.cfg.use_gammas_ref = false) (h2 : c.use_Roderiks_gamma = true) :
    (sps c).gamma_SPS_inj =
      Real.sqrt (1 + (((if c.cfg.LEIR_PS_strip then c.Z else c.Q) / 54)
        / (c.mass_GeV / c.m0_GeV)) ^ 2 * (c.gamma0_SPS_inj ^ 2 - 1)) := by
  unfold sps
  simp [h1, h2]

/-- Witness for C3 at a concrete chain state. -/
theorem sps_gamma_inj_roderik_witness :
    (sps chainO).gamma_SPS_inj =
      Real.sqrt (1 + (((if chainO.cfg.LEIR_PS_strip then chainO.Z else chainO.Q) / 54)
        / (chainO.mass_GeV / chainO.m0_GeV)) ^ 2 * (chainO.gamma0_SPS_inj ^ 2 - 1)) :=
  sps_gamma_inj_roderik chainO rfl rfl

/-- C4: the record carries the LEIR-PS stripping efficiency exactly when
early stripping is configured, and the PS-to-SPS boundary multiplies by the
1.0 transmission efficiency when the ion is fully stripped (Z = Q) or early
stripping is configured, and by the fixed 0.9 stripping efficiency
otherwise. -/
theorem strip_boundary_fields (c : Chain) (ion_type : String) (d : IonData) :
    (calculate_LHC_bunch_intensity (init_ion c ion_type d)).2.LEIR_PS_strippingEfficiency =
      (if c.cfg.LEIR_PS_strip then some d.leirPsStripEff else none) ∧
    (calculate_LHC_bunch_intensity (init_ion c ion_type d)).2.SPS_maxIntensityPerBunch =
      (if c.cfg.consider_PS_space_charge_limit then
          min ((calculate_LHC_bunch_intensity (init_ion c ion_type d)).2.PS_space_charge_limit)
            ((calculate_LHC_bunch_intensity (init_ion c ion_type d)).2.PS_ionsExtractedPerBunch)
        else (calculate_LHC_bunch_intensity (init_ion c ion_type d)).2.PS_ionsExtractedPerBunch)
        * (if d.Z = d.Q ∨ c.cfg.LEIR_PS_strip then 1.0 else 0.9) := by
  unfold init_ion
  split
  · exact ⟨rfl, rfl⟩
  · exact ⟨rfl, rfl⟩

/-- Witness for C4 at a concrete chain state. -/
theorem strip_boundary_fields_witness :
    (calculate_LHC_bunch_intensity (init_ion chainO ("O") ionO)).2.LEIR_PS_strippingEfficiency =
      (if chainO.cfg.LEIR_PS_strip then some ionO.leirPsStripEff else none) :=
  (strip_boundary_fields chainO ("O") ionO).1

/-- C5: with the configured pulse count at 0 (auto mode) the LEIR pulse
count is min(7, ceil(spaceChargeLimitLEIR / (ionsPerPulseLinac3 *
LEIR_injection_efficiency))), hence at most 7 however small the per-pulse
intensity; with a nonzero configured count exactly that count is used. -/
theorem nPulsesLEIR_auto_cap (c : Chain) :
    (c.cfg.nPulsesLEIR = 0 →
      (calculate_LHC_bunch_intensity c).2.LEIR_numberofPulses =
        min 7 ⌈(calculate_LHC_bunch_intensity c).2.LEIR_space_charge_limit /
          ((calculate_LHC_bunch_intensity c).2.Linac3_ionsPerPulse
            * c.LEIR_injection_efficiency)⌉ ∧
      (calculate_LHC_bunch_intensity c).2.LEIR_numberofPulses ≤ 7) ∧
    (c.cfg.nPulsesLEIR ≠ 0 →
      (calculate_LHC_bunch_intensity c).2.LEIR_numberofPulses = c.cfg.nPulsesLEIR) := by
  have key : (calculate_LHC_bunch_intensity c).2.LEIR_numberofPulses =
      if c.cfg.nPulsesLEIR = 0 then
        min 7 ⌈(calculate_LHC_bunch_intensity c).2.LEIR_space_charge_limit /
          ((calculate_LHC_bunch_intensity c).2.Linac3_ionsPerPulse
            * c.LEIR_injection_efficiency)⌉
      else c.cfg.nPulsesLEIR := rfl
  constructor
  · intro h
    rw [key, if_pos h]
    exact ⟨rfl, min_le_left _ _⟩
  · intro h
    rw [key, if_neg h]

/-- Witness for C5: the auto-mode pulse count is at most 7 at a concrete
chain state. -/
theorem nPulsesLEIR_auto_cap_witness :
    (calculate_LHC_bunch_intensity chainAuto).2.LEIR_numberofPulses ≤ 7 :=
  ((nPulsesLEIR_auto_cap chainAuto).1 rfl).2

/-- C6 counterexample: with account_for_SPS_transmission = False, batch
mode (which re-runs init_ion) emits a record whose SPS transmission field
is 0.62, not 1.0. -/
theorem batch_SPS_transmission_counterexample :
    Except.map
        (fun ch => (calculate_LHC_bunch_intensity_all_ion_species ch).2.map
          Result.SPS_transmission)
        (mkInjectorChain ("O") ionO [("O", ionO)] ("Pb") cfgNoSPSTrans energyConst)
      = Except.ok [0.62] ∧ (0.62 : ℝ) ≠ 1.0 := by
  constructor
  · rfl
  · norm_num

/-- C6 (amended): with account_for_SPS_transmission false the reference
initializer divides the observed SPS ion count by 1.0 and sets the SPS
transmission to 1.0, and a calculate_LHC_bunch_intensity call on that state
uses 1.0; but init_ion resets the SPS transmission to 0.62, so every record
emitted by batch mode (which re-runs init_ion per ion without re-running
the reference initializer) carries 0.62 regardless of the flag. -/
theorem SPS_transmission_reset_on_init (c : Chain)
    (href : c.ion_type_ref = "Pb")
    (hacc : c.cfg.account_for_SPS_transmission = false) :
    (∀ c', ion0_referenceValues c = Except.ok c' →
      c'.SPS_transmission = 1.0 ∧ c'.Nb0_SPS_extr = 2.21e8 / 1.0 ∧
      (calculate_LHC_bunch_intensity c').2.SPS_transmission = 1.0) ∧
    (∀ ion_type d, (init_ion c ion_type d).SPS_transmission = 0.62) ∧
    (∀ r ∈ (calculate_LHC_bunch_intensity_all_ion_species c).2,
      r.SPS_transmission = 0.62) := by
  refine ⟨?_, ?_, ?_⟩
  · intro c' h
    unfold ion0_referenceValues at h
    rw [if_pos href] at h
    injection h with h
    subst h
    refine ⟨?_, ?_, ?_⟩
    · show (if c.cfg.account_for_SPS_transmission then c.SPS_transmission else 1.0) = 1.0
      rw [hacc]
      rfl
    · show 2.21e8 / (if c.cfg.account_for_SPS_transmission then c.SPS_transmission else 1.0)
        = 2.21e8 / 1.0
      rw [hacc]
      rfl
    · rw [calc_record_SPS_transmission]
      show (if c.cfg.account_for_SPS_transmission then c.SPS_transmission else 1.0) = 1.0
      rw [hacc]
      rfl
  · intro ion_type d
    exact init_ion_SPS_transmission c ion_type d
  · intro r hr
    have hb := batchLoop_records c.full_ion_data c
    unfold calculate_LHC_bunch_intensity_all_ion_species at hr
    rw [hb] at hr
    obtain ⟨entry, hmem, hrec⟩ := List.mem_map.mp hr
    rw [← hrec]
    exact recordPure_SPS_transmission _ _

/-- Witness for the amended C6 at a concrete chain state. -/
theorem SPS_transmission_reset_on_init_witness :
    (init_ion chainNoSPSTrans ("O") ionO).SPS_transmission = 0.62 :=
  (SPS_transmission_reset_on_init chainNoSPSTrans rfl rfl).2.1 ("O") ionO

/-- C7: reference initialization succeeds exactly when the configured
reference species is Pb, raising the fixed ValueError message otherwise (in
which case the constructor also fails, so no simulation can proceed); on
success every reference constant is set to its Pb value. -/
theorem ion0_reference_pb_only (c : Chain) :
    (c.ion_type_ref = "Pb" → ∃ c', ion0_referenceValues c = Except.ok c') ∧
    (c.ion_type_ref ≠ "Pb" →
      ion0_referenceValues c =
        Except.error ("Other reference ion type than Pb does not yet exist!")) ∧
    (∀ c', ion0_referenceValues c = Except.ok c' →
      c'.m0_GeV = 193.687 ∧ c'.Z0 = 82.0 ∧
      c'.Nq0_LEIR_extr = 10e10 ∧ c'.Q0_LEIR = 54.0 ∧
      c'.Nb0_LEIR_extr = 10e10 / 54.0 ∧
      c'.gamma0_LEIR_inj = (193.687 + 4.2e-3 * 208) / 193.687 ∧
      c'.gamma0_LEIR_extr = (193.687 + 7.22e-2 * 208) / 193.687 ∧
      c'.Nq0_PS_extr = 6e10 ∧ c'.Q0_PS = 54.0 ∧ c'.Nb0_PS_extr = 6e10 / 54.0 ∧
      c'.gamma0_PS_inj = (193.687 + 7.22e-2 * 208) / 193.687 ∧
      c'.gamma0_PS_extr = (193.687 + 5.9 * 208) / 193.687 ∧
      c'.Q0_SPS = 82.0 ∧
      c'.Nb0_SPS_extr = 2.21e8 /
        (if c.cfg.account_for_SPS_transmission then c.SPS_transmission else 1.0) ∧
      c'.gamma0_SPS_inj = (193.687 + 5.9 * 208) / 193.687 ∧
      c'.gamma0_SPS_extr = (193.687 + 176.4 * 208) / 193.687) ∧
    (∀ (ion_type : String) (d : IonData) (tbl : List (String × IonData))
      (ref : String) (cfg : Config) (en : ℤ × String × ℤ → EnergyRow),
      ref ≠ "Pb" →
      mkInjectorChain ion_type d tbl ref cfg en =
        Except.error ("Other reference ion type than Pb does not yet exist!")) := by
  refine ⟨?_, ?_, ?_, ?_⟩
  · intro h
    unfold ion0_referenceValues
    rw [if_pos h]
    exact ⟨_, rfl⟩
  · intro h
    unfold ion0_referenceValues
    rw [if_neg h]
  · intro c' h
    unfold ion0_referenceValues at h
    by_cases href : c.ion_type_ref = "Pb"
    · rw [if_pos href] at h
      injection h with h
      subst h
      exact ⟨rfl, rfl, rfl, rfl, rfl, rfl, rfl, rfl, rfl, rfl, rfl, rfl, rfl, rfl,
        rfl, rfl⟩
    · rw [if_neg href] at h
      exact Except.noConfusion h
  · intro ion_type d tbl ref cfg en h
    unfold mkInjectorChain ion0_referenceValues
    rw [if_neg]
    intro hcond
    rw [init_ion_ion_type_ref] at hcond
    exact h hcond

/-- Witness for C7 at a concrete chain state with the Pb reference. -/
theorem ion0_reference_pb_only_witness :
    ∃ c', ion0_referenceValues chainO = Except.ok c' :=
  (ion0_reference_pb_only chainO).1 rfl

/-- C8 counterexample: gamma = 1 lies in the claimed range g ≤ 1, yet beta
evaluates to the ordinary number 0 (not NaN, no error raised) and the
intensity-limit computation at target gamma 1 returns an ordinary numeric
result. -/
theorem beta_at_gamma_one_counterexample :
    ((1 : ℝ) ≤ 1) ∧ betaF 1 = some 0 ∧
    (linearIntensityLimitF chainO 1 1 1 1 1 3 true).isSome = true := by
  have h1 : betaF 1 = some 0 := by
    unfold betaF
    rw [if_neg (by norm_num), if_neg (by norm_num),
      show (1 : ℝ) - 1 / 1 ^ 2 = 0 by norm_num, Real.sqrt_zero]
  have h3 : betaF 3 = some (Real.sqrt (1 - 1 / 3 ^ 2)) := by
    unfold betaF
    rw [if_neg (by norm_num), if_neg (by norm_num)]
  refine ⟨le_refl 1, h1, ?_⟩
  unfold linearIntensityLimitF
  rw [h3, h1]
  rfl

/-- C8 (amended): for every gamma strictly between -1 and 1 (the exact NaN
range under float semantics, gamma = 0 included) beta is NaN, and every
intensity-limit computation at that target gamma returns NaN: the
non-physical gamma is surfaced to the caller, not coerced into an ordinary
numeric result. -/
theorem betaF_nan_range (g : ℝ) (hgl : -1 < g) (hgu : g < 1) :
    betaF g = none ∧
    ∀ (c : Chain) (m Nb_0 charge_0 m_0 gamma_0 : ℝ) (fs : Bool),
      linearIntensityLimitF c m g Nb_0 charge_0 m_0 gamma_0 fs = none := by
  have hb : betaF g = none := by
    unfold betaF
    rcases eq_or_ne g 0 with h0 | h0
    · rw [if_pos h0]
    · have hg2 : 0 < g ^ 2 := by positivity
      have hlt : g ^ 2 < 1 := by nlinarith
      have hcond : 1 - 1 / g ^ 2 < 0 := by
        have := (one_lt_div hg2).mpr hlt
        linarith
      rw [if_neg h0, if_pos hcond]
  refine ⟨hb, ?_⟩
  intro c m Nb_0 charge_0 m_0 gamma_0 fs
  unfold linearIntensityLimitF
  rw [hb]
  cases betaF gamma_0 <;> rfl

/-- Witness for the amended C8 at gamma = 1/2. -/
theorem betaF_nan_range_witness : betaF (1 / 2) = none :=
  (betaF_nan_range (1 / 2) (by norm_num) (by norm_num)).1

/-- C9: batch mode emits one record per table column, in table order, each
record the pure function of the persistent state and that column alone;
hence equal columns give equal records, with no numeric state leaking
between rows. -/
theorem batch_records_pure (c : Chain) :
    (calculate_LHC_bunch_intensity_all_ion_species c).2 =
      c.full_ion_data.map (recordPure (persist c)) ∧
    (calculate_LHC_bunch_intensity_all_ion_species c).2.length =
      c.full_ion_data.length ∧
    ∀ i j : ℕ, c.full_ion_data.get? i = c.full_ion_data.get? j →
      (calculate_LHC_bunch_intensity_all_ion_species c).2.get? i =
        (calculate_LHC_bunch_intensity_all_ion_species c).2.get? j := by
  have h : (calculate_LHC_bunch_intensity_all_ion_species c).2 =
      c.full_ion_data.map (recordPure (persist c)) :=
    batchLoop_records c.full_ion_data c
  refine ⟨h, ?_, ?_⟩
  · rw [h, List.length_map]
  · intro i j hij
    rw [h, List.get?_map, List.get?_map, hij]

/-- Witness for C9: over a concrete two-column table with identical
columns, batch mode emits two records and the two records agree. -/
theorem batch_records_pure_witness :
    (calculate_LHC_bunch_intensity_all_ion_species chainO).2.length = 2 ∧
    (calculate_LHC_bunch_intensity_all_ion_species chainO).2.get? 0 =
      (calculate_LHC_bunch_intensity_all_ion_species chainO).2.get? 1 := by
  refine ⟨?_, ?_⟩
  · rw [(batch_records_pure chainO).2.1]
    rfl
  · exact (batch_records_pure chainO).2.2 0 1 rfl

/-- C10: the space-charge limits recomputed inside
calculate_LHC_bunch_intensity coincide with the extracted bunch intensities
the stage functions just stored: the LEIR limit equals Nb_LEIR_extr and the
SPS limit equals Nb_SPS_extr, both pairs being the same
linearIntensityLimit calls on the same state. -/
theorem space_charge_limits_match_stage_outputs (c : Chain) :
    (calculate_LHC_bunch_intensity c).2.LEIR_space_charge_limit =
      (calculate_LHC_bunch_intensity c).1.Nb_LEIR_extr ∧
    (calculate_LHC_bunch_intensity c).2.SPS_spaceChargeLimit =
      (calculate_LHC_bunch_intensity c).1.Nb_SPS_extr :=
  ⟨rfl, rfl⟩

/-- Witness for C10 at a concrete chain state. -/
theorem space_charge_limits_match_stage_outputs_witness :
    (calculate_LHC_bunch_intensity chainO).2.LEIR_space_charge_limit =
      (calculate_LHC_bunch_intensity chainO).1.Nb_LEIR_extr :=
  (space_charge_limits_match_stage_outputs chainO).1

end InjectorModel
